import Mathlib

/-!
Verification development for a conversational-agent integration
(`custom_components/bedrock_agent`): a shallow embedding of the agent
lifecycle manager, the response orchestrator and the Home Assistant tool
dispatch bridge, with theorems about caching, dispatch validation,
collision handling, response extraction and error recovery.
-/

set_option maxRecDepth 4000

namespace BedrockAgent

/-! ## String utilities

Executable models of the Python string operations used by the source:
substring containment (`needle in hay`), prefix test (`str.startswith`),
`", ".join(...)`, `sorted(...)` on strings, and the specific regex search
`re.search(r"scene\.(\w+)", s)`. -/

/-- Boolean test that the first character list is a prefix of the second. -/
def preOf : List Char → List Char → Bool
  | [], _ => true
  | _ :: _, [] => false
  | a :: as, b :: bs => a == b && preOf as bs

/-- Boolean test that `needle` occurs as a contiguous sublist of `hay`;
models the Python operator `needle in hay` on strings. -/
def subIn (needle : List Char) : List Char → Bool
  | [] => preOf needle []
  | c :: t => preOf needle (c :: t) || subIn needle t

/-- Substring containment on strings: Python `needle in hay`. -/
def strContains (hay needle : String) : Bool :=
  subIn needle.data hay.data

/-- Python `", ".join(l)`. -/
def joinComma : List String → String
  | [] => ""
  | [x] => x
  | x :: y :: t => x ++ ", " ++ joinComma (y :: t)

/-- Insert a string into a sorted list (ascending, lexicographic). -/
def insSorted (s : String) : List String → List String
  | [] => [s]
  | x :: t => if s < x then s :: x :: t else x :: insSorted s t

/-- Python `sorted(l)` for lists of strings (insertion sort). -/
def sortStr : List String → List String
  | [] => []
  | x :: t => insSorted x (sortStr t)

/-- Regex word character, ASCII: `[A-Za-z0-9_]`. -/
def isWordChar (c : Char) : Bool :=
  c.isAlphanum || c == '_'

/-- Model of `re.search(r"scene\.(\w+)", s)` on a character list: find the
leftmost occurrence of the literal `scene.` followed by at least one word
character, and return the maximal word-character run after the dot. -/
def sceneSearch : List Char → Option String
  | [] => none
  | c :: t =>
    if preOf "scene.".data (c :: t) then
      let run := ((c :: t).drop 6).takeWhile isWordChar
      if run.isEmpty then sceneSearch t else some ⟨run⟩
    else sceneSearch t

/-- Entry point for the regex model on strings. -/
def sceneSearchStr (s : String) : Option String :=
  sceneSearch s.data

/-! ## Association lists

Python `dict` semantics for the registries and caches: assignment keeps the
original position of an existing key and appends a fresh key, deletion
removes the binding. -/

/-- Lookup in an association list (Python `d[k]` / `k in d`). -/
def alookup (k : String) : List (String × α) → Option α
  | [] => none
  | (k₂, v) :: t => if k = k₂ then some v else alookup k t

/-- Python `d[k] = v`: replace in place if present, append otherwise. -/
def ainsert (k : String) (v : α) : List (String × α) → List (String × α)
  | [] => [(k, v)]
  | (k₂, v₂) :: t => if k = k₂ then (k, v) :: t else (k₂, v₂) :: ainsert k v t

/-- Python `del d[k]` (no-op when the key is absent): remove every binding
of `k` — dict keys are unique, so this is the single deleted entry. -/
def aerase (k : String) : List (String × α) → List (String × α)
  | [] => []
  | (k₂, v₂) :: t => if k = k₂ then aerase k t else (k₂, v₂) :: aerase k t

/-- Keys of an association list, in insertion order (Python `d.keys()`). -/
def akeys (l : List (String × α)) : List String :=
  l.map Prod.fst

/-! ## Tool dispatch bridge (`ha_control_tool.py`)

The Home Assistant tools are external objects; a tool is modelled by its
description and its handler behaviour (return a dict, return a non-dict
value with a string representation, or raise an exception with a message).
-/

/-- A Python value as it appears among tool arguments. -/
inductive PyVal
  | str (s : String)
  | int (n : Int)
deriving DecidableEq

/-- Outcome of `ha_tool.async_call`: a dict result, a non-dict result
(observed through `str(result)`), or a raised exception (observed through
`str(err)`). -/
inductive HAResult
  | retDict (d : List (String × String))
  | retOther (s : String)
  | raises (msg : String)

/-- An externally supplied Home Assistant tool: description and handler. -/
structure HATool where
  descr : Option String
  handler : List (String × PyVal) → HAResult

/-- An externally supplied LLM API (capability provider): id, whether
`async_get_api_instance` succeeds, and the tools it exposes, in
registration order. -/
structure HAAPI where
  id : String
  instantiate_ok : Bool
  tools : List (String × HATool)

/-- `HAToolRegistry` state: the api_id → api-instance dict (an instance is
observed through its tool list) and the merged name → (tool, api_id)
table. -/
structure HAToolRegistry where
  api_instances : List (String × List (String × HATool))
  tools_by_name : List (String × (HATool × String))

/-- Register one provider's tools into the table
(the inner loop of `async_load_apis`). -/
def regAll (apiId : String) (acc : List (String × (HATool × String))) :
    List (String × HATool) → List (String × (HATool × String))
  | [] => acc
  | (n, t) :: rest => regAll apiId (ainsert n (t, apiId) acc) rest

/-- The provider loop of `HAToolRegistry.async_load_apis`: a failing
provider is logged and skipped, a succeeding one has all its tools merged
into the shared table, overwriting on name collision. -/
def loadApis (acc : HAToolRegistry) : List HAAPI → HAToolRegistry
  | [] => acc
  | api :: rest =>
    if api.instantiate_ok then
      loadApis
        { api_instances := ainsert api.id api.tools acc.api_instances
          tools_by_name := regAll api.id acc.tools_by_name api.tools }
        rest
    else
      loadApis acc rest

/-- `HAToolRegistry.async_load_apis`: clear both tables, then load every
provider in order. -/
def async_load_apis (apis : List HAAPI) : HAToolRegistry :=
  loadApis { api_instances := [], tools_by_name := [] } apis

/-- Result of one dispatch: the returned payload and how many times an
underlying handler was invoked. -/
structure CallResult where
  payload : List (String × String)
  handlerCalls : Nat
deriving DecidableEq

/-- The exception post-processing of `async_call_tool`: a raised handler
error whose text matches the scene pattern is replaced by an actionable
hint, every other error text is passed through. -/
def sceneAdjusted (reg : HAToolRegistry) (error_msg : String) : String :=
  if strContains error_msg "Failed to call turn_on" &&
      strContains error_msg "scene." then
    let scene_name := (sceneSearchStr error_msg).getD "unknown"
    if (alookup scene_name reg.tools_by_name).isSome then
      "Cannot use HassTurnOn for scenes. Use tool_name=\x27" ++ scene_name ++
        "\x27 directly instead."
    else
      "Scenes cannot be activated with HassTurnOn. Try using the scene name as tool_name directly, or check available tools with GetLiveContext."
  else error_msg

/-- `HAToolRegistry.async_call_tool`: unknown names give a structured error
listing the available names; a found tool's handler is invoked, dict
results pass through, non-dict results are wrapped, and exceptions are
converted to a structured error (with the scene special case). -/
def async_call_tool (reg : HAToolRegistry) (tool_name : String)
    (tool_args : List (String × PyVal)) : CallResult :=
  match alookup tool_name reg.tools_by_name with
  | none =>
    { payload := [("error",
        "Tool \x27" ++ tool_name ++ "\x27 not found. Available tools: " ++
          joinComma (sortStr (akeys reg.tools_by_name)))]
      handlerCalls := 0 }
  | some (ha_tool, _api_id) =>
    match ha_tool.handler tool_args with
    | .retDict d => { payload := d, handlerCalls := 1 }
    | .retOther s => { payload := [("result", s)], handlerCalls := 1 }
    | .raises msg =>
      { payload := [("error", sceneAdjusted reg msg)], handlerCalls := 1 }

/-- The fixed set of intents declared to require a target `name` argument
(`intents_requiring_name` in `homeassistant_control`). -/
def intents_requiring_name : List String :=
  ["HassTurnOn", "HassTurnOff", "HassToggle", "HassGetState", "HassLightSet",
   "HassSetPosition", "HassMediaUnpause", "HassMediaPause", "HassMediaNext",
   "HassMediaPrevious", "HassSetVolume", "HassListAddItem",
   "HassListRemoveItem"]

/-- Arguments of the `homeassistant_control` dispatch tool; the string
parameters default to `""` and `brightness` to `None`, exactly as the
Python signature does. -/
structure ControlInput where
  tool_name : String
  name : String := ""
  domain : String := ""
  brightness : Option Int := none
  color : String := ""
  item : String := ""
  kwargs : List (String × PyVal) := []

/-- The `tool_args` dict built by `homeassistant_control` before dispatch:
start from `kwargs`, then set each standard parameter only when truthy. -/
def build_tool_args (inp : ControlInput) : List (String × PyVal) :=
  let a := inp.kwargs
  let a := if inp.name ≠ "" then ainsert "name" (PyVal.str inp.name) a else a
  let a := if inp.domain ≠ "" then ainsert "domain" (PyVal.str inp.domain) a else a
  let a := match inp.brightness with
    | some b => ainsert "brightness" (PyVal.int b) a
    | none => a
  let a := if inp.color ≠ "" then ainsert "color" (PyVal.str inp.color) a else a
  if inp.item ≠ "" then ainsert "item" (PyVal.str inp.item) a else a

/-- The missing-target-name error message, tailored to list-type versus
device-type intents. -/
def missingNameMsg (tool_name : String) : String :=
  "Intent \x27" ++ tool_name ++ "\x27 requires a \x27name\x27 parameter. " ++
    (if tool_name.startsWith "HassList" then
      "For shopping list intents, provide the list name (e.g., name=\x27Shopping List\x27)."
    else
      "For device control, provide the device name (e.g., name=\x27kitchen light\x27).")

/-- The `homeassistant_control` dispatch tool: pre-dispatch validation of
the target name for the fixed intent set, then dispatch through the
registry. -/
def homeassistant_control (reg : HAToolRegistry) (inp : ControlInput) :
    CallResult :=
  if intents_requiring_name.contains inp.tool_name && inp.name == "" then
    { payload := [("error", missingNameMsg inp.tool_name)], handlerCalls := 0 }
  else
    async_call_tool reg inp.tool_name (build_tool_args inp)

/-! ## Response extraction (`generate_response`, lines 677–689)

`AgentResult.message` is a dict with a `content` list of content blocks; a
block is a dict that may carry a `"text"` entry, a dict without one, or a
non-dict value. -/

/-- One content block of a structured reply. -/
inductive ContentBlock
  | dict (text : Option String)
  | nonDict
deriving DecidableEq

/-- A structured reply: `message` is `none` when absent or falsy, otherwise
it carries the `content` block list; `str_repr` models `str(response)`. -/
structure AgentResult where
  message : Option (List ContentBlock)
  str_repr : String
deriving DecidableEq

/-- The `text_parts` list comprehension: the text of every block that is a
dict containing a `"text"` key, in order. -/
def textParts (blocks : List ContentBlock) : List String :=
  blocks.filterMap fun b =>
    match b with
    | .dict (some t) => some t
    | _ => none

/-- The response-extraction tail of `generate_response`: join the text
parts when the message exists, falling back to `str(response)` when the
message is absent or no block is tagged with text. -/
def extract_response_text (r : AgentResult) : String :=
  match r.message with
  | some blocks =>
    let parts := textParts blocks
    if parts.isEmpty then r.str_repr else String.join parts
  | none => r.str_repr

/-! ## Module-level mem0 import state (`strands_wrapper.py`, lines 30–53) -/

/-- Outcome of the module-level import attempts: availability flag and the
error message explaining unavailability. The first component is
`_mem0_available`, the second `_mem0_error_message`. -/
def mem0ImportState (strands_tools_importable faiss_importable : Bool) :
    Bool × Option String :=
  if strands_tools_importable then
    if faiss_importable then (true, none)
    else (false, some "Faiss-cpu not available. Install with: pip install faiss-cpu")
  else
    (false, some "Mem0_memory tool not available. Install with: pip install \x27strands-agents-tools[mem0_memory]\x27")

/-! ## Agent cache / lifecycle manager (`StrandsAgentWrapper`)

`strands.Agent` and `FileSessionManager` are external library objects; each
is modelled by its identity-relevant configuration plus a build sequence
number drawn from a per-wrapper counter, so that structural equality of the
model coincides with reference identity of the Python objects. -/

/-- Model of a `FileSessionManager` handle. -/
structure FileSessionManager where
  session_id : String
  storage_dir : String
  seq : Nat
deriving DecidableEq

/-- Model of a constructed `strands.Agent` instance. -/
structure Agent where
  agent_id : Option String
  session : Option FileSessionManager
  tool_count : Nat
  seq : Nat
deriving DecidableEq

/-- Immutable wrapper configuration fixed at `__init__`. -/
structure WrapperCfg where
  model_id : String
  enable_memory_cfg : Bool
  enable_ha_control : Bool
  has_apis : Bool
  user_id_param : Option String
  hass_storage_dir : String
  memory_storage_path_param : String
  mem0_available : Bool
  mem0_error_message : Option String
deriving DecidableEq

/-- `self.enable_memory = enable_memory and _mem0_available`. -/
def WrapperCfg.enable_memory (cfg : WrapperCfg) : Bool :=
  cfg.enable_memory_cfg && cfg.mem0_available

/-- `self.user_id = user_id or "default_user"` (Python `or`: `None` and the
empty string both fall back). -/
def WrapperCfg.user_id (cfg : WrapperCfg) : String :=
  match cfg.user_id_param with
  | none => "default_user"
  | some s => if s = "" then "default_user" else s

/-- `self.memory_storage_path` (custom path, or the default under the Home
Assistant storage directory). -/
def WrapperCfg.memory_storage_path (cfg : WrapperCfg) : String :=
  if cfg.memory_storage_path_param ≠ "" then cfg.memory_storage_path_param
  else cfg.hass_storage_dir ++ "/bedrock_agent_memory"

/-- `self.session_storage_path`. -/
def WrapperCfg.session_storage_path (cfg : WrapperCfg) : String :=
  cfg.hass_storage_dir ++ "/bedrock_agent_sessions"

/-- `self.tools`: `[mem0_memory]` when memory is enabled, else empty; only
its length is observable in the model. -/
def WrapperCfg.tools_count (cfg : WrapperCfg) : Nat :=
  if cfg.enable_memory then 1 else 0

/-- Mutable wrapper state: the agent cache and session-manager cache (both
keyed by user id), the uncached default agent, the build counter supplying
fresh object identities, and the set of user ids with session data
persisted on disk. -/
structure WrapperState where
  agent_cache : List (String × Agent)
  session_managers : List (String × FileSessionManager)
  default_agent : Option Agent
  next_seq : Nat
  disk_sessions : List String
deriving DecidableEq

/-- The initial state after `__init__`. -/
def initState : WrapperState :=
  { agent_cache := [], session_managers := [], default_agent := none,
    next_seq := 0, disk_sessions := [] }

/-- `_get_session_manager`: return the cached handle for the user, or
construct a `FileSessionManager(session_id=user_id, storage_dir=...)`,
cache it, and record that the user's session data now exists on disk. -/
def getSessionManager (cfg : WrapperCfg) (user_id : String)
    (st : WrapperState) : FileSessionManager × WrapperState :=
  match alookup user_id st.session_managers with
  | some sm => (sm, st)
  | none =>
    let sm : FileSessionManager :=
      { session_id := user_id, storage_dir := cfg.session_storage_path,
        seq := st.next_seq }
    (sm,
      { st with
        session_managers := ainsert user_id sm st.session_managers
        next_seq := st.next_seq + 1
        disk_sessions :=
          if st.disk_sessions.contains user_id then st.disk_sessions
          else st.disk_sessions ++ [user_id] })

/-- The tool list assembled for a session-backed agent: `self.tools` plus
the Home Assistant control tool when control is enabled, APIs are present
and an LLM context was passed. -/
def agentToolCount (cfg : WrapperCfg) (has_llm_context : Bool) : Nat :=
  cfg.tools_count +
    (if cfg.enable_ha_control && cfg.has_apis && has_llm_context then 1 else 0)

/-- `get_agent_with_memory(conversation_id, user_id, llm_context)`: the
cache key is the user id alone; a hit returns the cached instance
unchanged, a miss builds a session manager and a fresh agent and caches it
under the user id. The conversation id is used only for logging. -/
def get_agent_with_memory (cfg : WrapperCfg) (_conversation_id : String)
    (user_id : String) (has_llm_context : Bool) (st : WrapperState) :
    Agent × WrapperState :=
  match alookup user_id st.agent_cache with
  | some agent => (agent, st)
  | none =>
    let sp := getSessionManager cfg user_id st
    let agent : Agent :=
      { agent_id := some user_id
        session := some sp.1
        tool_count := agentToolCount cfg has_llm_context
        seq := sp.2.next_seq }
    (agent,
      { sp.2 with
        agent_cache := ainsert user_id agent sp.2.agent_cache
        next_seq := sp.2.next_seq + 1 })

/-- `clear_conversation_cache`: documented no-op on the caches (agents are
keyed by user id). -/
def clear_conversation_cache (_conversation_id : String)
    (st : WrapperState) : WrapperState :=
  st

/-- `clear_user_cache(user_id)`: delete the user's entries from the agent
cache and the session-manager cache; on-disk session data is untouched. -/
def clear_user_cache (user_id : String) (st : WrapperState) : WrapperState :=
  { st with
    agent_cache := aerase user_id st.agent_cache
    session_managers := aerase user_id st.session_managers }

/-- `clear_all_cache()`: empty both caches; on-disk data is untouched. -/
def clear_all_cache (st : WrapperState) : WrapperState :=
  { st with agent_cache := [], session_managers := [] }

/-- `get_memory_stats()` return value. -/
structure MemoryStats where
  memory_enabled : Bool
  mem0_available : Bool
  user_id : String
  cached_agents : Nat
  cached_session_managers : Nat
  tools_count : Nat
  session_storage_path : String
  memory_storage_path : String
  error : Option String
deriving DecidableEq

/-- `get_memory_stats()`: report the effective memory flag, backend
availability, cache sizes, paths, and — when the backend is unavailable and
an import error message exists — that message under `error`. -/
def get_memory_stats (cfg : WrapperCfg) (st : WrapperState) : MemoryStats :=
  { memory_enabled := cfg.enable_memory
    mem0_available := cfg.mem0_available
    user_id := cfg.user_id
    cached_agents := st.agent_cache.length
    cached_session_managers := st.session_managers.length
    tools_count := cfg.tools_count
    session_storage_path := cfg.session_storage_path
    memory_storage_path := cfg.memory_storage_path
    error :=
      if !cfg.mem0_available then
        match cfg.mem0_error_message with
        | some m => some m
        | none => none
      else none }

/-! ## Response orchestrator (`generate_response`)

The backend invocation `agent(prompt)` / `agent.invoke_async(prompt)` is
external; it is modelled by an oracle mapping the invoked agent instance to
an outcome. The orchestrator's result records the returned text or the
propagated error, the final state, and the trace of agent invocations. -/

/-- Outcome of one backend invocation of an agent. -/
inductive InvokeOutcome
  | ok (r : AgentResult)
  | clientError (code : String) (msg : String)
  | otherError (msg : String)
deriving DecidableEq

/-- What `generate_response` does for the caller: return text, raise
`HomeAssistantError` (a `ClientError` wrapped with the provider message),
or propagate some other exception. -/
inductive GenResult
  | text (s : String)
  | fatalHA (msg : String)
  | fatalOther (msg : String)
deriving DecidableEq

/-- The wrapping performed by the outer `except ClientError` handler. -/
def bedrockErrorWrap (msg : String) : String :=
  "Amazon Bedrock Error: `" ++ msg ++ "`"

/-- The recoverable-failure signature: a `ValidationException` whose
message contains `cannot be provided in the same turn`. -/
def isTurnRoleError (code msg : String) : Bool :=
  code == "ValidationException" &&
    strContains msg "cannot be provided in the same turn"

/-- `generate_response(prompt, llm_context, conversation_id,
context_user_id)`. With a conversation id the session-backed agent is used;
when memory is additionally enabled the invocation runs in the executor and
a turn-role validation error triggers one cache-drop-and-rebuild retry.
Without a conversation id the lazily built default agent is invoked. All
remaining `ClientError`s are wrapped into a fatal user-facing error.
Convention: `conversation_id = some cid` models a truthy (non-empty)
conversation id, `none` a falsy one; for `context_user_id` the Python `or`
fallback on the empty string is modelled explicitly. -/
def generate_response (cfg : WrapperCfg) (oracle : Agent → InvokeOutcome)
    (has_llm_context : Bool) (conversation_id : Option String)
    (context_user_id : Option String) (st : WrapperState) :
    GenResult × WrapperState × List Agent :=
  match conversation_id with
  | some cid =>
    let effective_user_id :=
      match context_user_id with
      | none => cfg.user_id
      | some u => if u = "" then cfg.user_id else u
    let p := get_agent_with_memory cfg cid effective_user_id has_llm_context st
    if cfg.enable_memory then
      match oracle p.1 with
      | .ok r => (.text (extract_response_text r), p.2, [p.1])
      | .clientError code msg =>
        if isTurnRoleError code msg then
          let st₂ := clear_user_cache effective_user_id p.2
          let q :=
            get_agent_with_memory cfg cid effective_user_id has_llm_context st₂
          match oracle q.1 with
          | .ok r => (.text (extract_response_text r), q.2, [p.1, q.1])
          | .clientError _ msg₂ =>
            (.fatalHA (bedrockErrorWrap msg₂), q.2, [p.1, q.1])
          | .otherError msg₂ => (.fatalOther msg₂, q.2, [p.1, q.1])
        else (.fatalHA (bedrockErrorWrap msg), p.2, [p.1])
      | .otherError msg => (.fatalOther msg, p.2, [p.1])
    else
      match oracle p.1 with
      | .ok r => (.text (extract_response_text r), p.2, [p.1])
      | .clientError _ msg => (.fatalHA (bedrockErrorWrap msg), p.2, [p.1])
      | .otherError msg => (.fatalOther msg, p.2, [p.1])
  | none =>
    let p : Agent × WrapperState :=
      match st.default_agent with
      | some a => (a, st)
      | none =>
        let a : Agent :=
          { agent_id := none, session := none
            tool_count :=
              if cfg.enable_ha_control && cfg.has_apis && has_llm_context
              then 1 else 0
            seq := st.next_seq }
        (a, { st with default_agent := some a, next_seq := st.next_seq + 1 })
    match oracle p.1 with
    | .ok r => (.text (extract_response_text r), p.2, [p.1])
    | .clientError _ msg => (.fatalHA (bedrockErrorWrap msg), p.2, [p.1])
    | .otherError msg => (.fatalOther msg, p.2, [p.1])

/-! ## Specification-side observation definitions

Independent formulations used in the theorem statements: the last binding a
provider registers for a name, the outcome dispatch produces from a given
tool, the concatenation of text-tagged segments, and the intermediate
states of the forced rebuild-and-retry path. -/

/-- The last binding of a name in one provider's registration list. -/
def lastBind (n : String) : List (String × HATool) → Option HATool
  | [] => none
  | (k, v) :: t =>
    match lastBind n t with
    | some r => some r
    | none => if n = k then some v else none

/-- The dispatch outcome obtained from a specific tool's handler. -/
def handlerResult (reg : HAToolRegistry) (t : HATool)
    (args : List (String × PyVal)) : CallResult :=
  match t.handler args with
  | .retDict d => { payload := d, handlerCalls := 1 }
  | .retOther s => { payload := [("result", s)], handlerCalls := 1 }
  | .raises msg =>
    { payload := [("error", sceneAdjusted reg msg)], handlerCalls := 1 }

/-- Whether some content block is a dict tagged with a `"text"` entry. -/
def hasTextSegment (blocks : List ContentBlock) : Bool :=
  blocks.any fun b =>
    match b with
    | .dict (some _) => true
    | _ => false

/-- In-order concatenation of the text of every text-tagged segment. -/
def taggedTextConcat : List ContentBlock → String
  | [] => ""
  | .dict (some t) :: rest => t ++ taggedTextConcat rest
  | _ :: rest => taggedTextConcat rest

/-- The state after the forced eviction step of the recovery path: serve
the request once, then drop both cache entries of the effective user. -/
def droppedState (cfg : WrapperCfg) (ctx : Bool) (cid u : String)
    (st : WrapperState) : WrapperState :=
  clear_user_cache u (get_agent_with_memory cfg cid u ctx st).2

/-- The fresh agent built by the retry of the recovery path. -/
def rebuiltAgent (cfg : WrapperCfg) (ctx : Bool) (cid u : String)
    (st : WrapperState) : Agent :=
  (get_agent_with_memory cfg cid u ctx (droppedState cfg ctx cid u st)).1

/-- The wrapper state after the retry of the recovery path. -/
def rebuiltState (cfg : WrapperCfg) (ctx : Bool) (cid u : String)
    (st : WrapperState) : WrapperState :=
  (get_agent_with_memory cfg cid u ctx (droppedState cfg ctx cid u st)).2

/-! ## Concrete fixtures

Closed example values used by the witness theorems. -/

/-- Example tool succeeding with a dict result. -/
def exTurnOnTool : HATool :=
  { descr := some "Turns on a device", handler := fun _ => .retDict [("success", "true")] }

/-- Example tool whose handler raises the scene error text. -/
def exSceneMsg : String :=
  "Failed to call turn_on: entity scene.ha_new does not support this service"

/-- Example tool raising the scene error. -/
def exRaisingTool : HATool :=
  { descr := some "Turns on a device", handler := fun _ => .raises exSceneMsg }

/-- Example scene-named tool. -/
def exSceneTool : HATool :=
  { descr := some "Activates the scene", handler := fun _ => .retDict [("ok", "1")] }

/-- Example context tool. -/
def exContextTool : HATool :=
  { descr := some "Lists devices", handler := fun _ => .retOther "ctx" }

/-- Example provider exposing `HassTurnOn`. -/
def exAssistApi : HAAPI :=
  { id := "assist", instantiate_ok := true,
    tools := [("HassTurnOn", exTurnOnTool)] }

/-- Example registry with one `HassTurnOn` tool. -/
def exReg : HAToolRegistry := async_load_apis [exAssistApi]

/-- Example registry without `HassTurnOn`. -/
def exRegNoTurnOn : HAToolRegistry :=
  async_load_apis
    [{ id := "assist", instantiate_ok := true,
       tools := [("GetLiveContext", exContextTool)] }]

/-- Example registry where `HassTurnOn` raises the scene error and a
same-named scene tool exists. -/
def exRegScene : HAToolRegistry :=
  async_load_apis
    [{ id := "assist", instantiate_ok := true,
       tools := [("HassTurnOn", exRaisingTool), ("ha_new", exSceneTool)] }]

/-- Example dispatch input naming `HassTurnOn` with no target name. -/
def exInpTurnOn : ControlInput := { tool_name := "HassTurnOn" }

/-- Example overriding tool registered by a second provider. -/
def exOverrideTool : HATool :=
  { descr := some "Overriding provider tool",
    handler := fun _ => .retDict [("winner", "two")] }

/-- Example second provider colliding on `HassTurnOn`. -/
def exSecondApi : HAAPI :=
  { id := "assist2", instantiate_ok := true,
    tools := [("HassTurnOn", exOverrideTool)] }

/-- Example wrapper configuration with memory enabled and available. -/
def exCfgMem : WrapperCfg :=
  { model_id := "bedrock-model-1", enable_memory_cfg := true,
    enable_ha_control := true, has_apis := true,
    user_id_param := some "user-1", hass_storage_dir := "/config/.storage",
    memory_storage_path_param := "", mem0_available := true,
    mem0_error_message := none }

/-- Example wrapper configuration with memory disabled in configuration. -/
def exCfgNoMem : WrapperCfg := { exCfgMem with enable_memory_cfg := false }

/-- Example wrapper configuration where memory was requested but the faiss
dependency is missing, as reported by the module import state. -/
def exCfgFaissMissing : WrapperCfg :=
  { exCfgMem with
    mem0_available := false,
    mem0_error_message :=
      some "Faiss-cpu not available. Install with: pip install faiss-cpu" }

/-- Example provider error message carrying the turn-role signature. -/
def exTurnMsg : String :=
  "messages: roles toolResult and text cannot be provided in the same turn."

/-- Example content blocks of a structured reply. -/
def exBlocks : List ContentBlock :=
  [.dict (some "All "), .nonDict, .dict none, .dict (some "good.")]

/-- Example successful structured reply. -/
def exOkResult : AgentResult :=
  { message := some exBlocks, str_repr := "AgentResult(stop)" }

/-- Example oracle: the first-built agent fails with the turn-role
signature, any later-built agent succeeds. -/
def exOracleRetry : Agent → InvokeOutcome := fun a =>
  if a.seq ≤ 1 then .clientError "ValidationException" exTurnMsg
  else .ok exOkResult

/-- Example oracle that always fails with the turn-role signature. -/
def exOracleFail : Agent → InvokeOutcome := fun _ =>
  .clientError "ValidationException" exTurnMsg

/-- Example session manager for the first user. -/
def exSmA : FileSessionManager :=
  { session_id := "user-1",
    storage_dir := "/config/.storage/bedrock_agent_sessions", seq := 0 }

/-- Example session manager for the second user. -/
def exSmB : FileSessionManager :=
  { session_id := "user-2",
    storage_dir := "/config/.storage/bedrock_agent_sessions", seq := 2 }

/-- Example cached agent for the first user. -/
def exAgentA : Agent :=
  { agent_id := some "user-1", session := some exSmA, tool_count := 2, seq := 1 }

/-- Example cached agent for the second user. -/
def exAgentB : Agent :=
  { agent_id := some "user-2", session := some exSmB, tool_count := 2, seq := 3 }

/-- Example wrapper state caching agents for two users. -/
def exState2 : WrapperState :=
  { agent_cache := [("user-1", exAgentA), ("user-2", exAgentB)],
    session_managers := [("user-1", exSmA), ("user-2", exSmB)],
    default_agent := none, next_seq := 4,
    disk_sessions := ["user-1", "user-2"] }

/-! ## Helper lemmas -/

theorem preOf_self_append (n r : List Char) : preOf n (n ++ r) = true := by
  induction n with
  | nil => rfl
  | cons a as ih => simp [preOf, ih]

theorem preOf_extend {n h : List Char} (r : List Char)
    (hp : preOf n h = true) : preOf n (h ++ r) = true := by
  induction n generalizing h with
  | nil => rfl
  | cons a as ih =>
    cases h with
    | nil => simp [preOf] at hp
    | cons b bs =>
      simp only [preOf, Bool.and_eq_true] at hp
      simp [preOf, hp.1, ih hp.2]

theorem subIn_of_preOf {n h : List Char} (hp : preOf n h = true) :
    subIn n h = true := by
  cases h with
  | nil => simpa [subIn] using hp
  | cons c t => simp [subIn, hp]

theorem subIn_append_left {n h : List Char} (p : List Char)
    (hs : subIn n h = true) : subIn n (p ++ h) = true := by
  induction p with
  | nil => simpa using hs
  | cons c cs ih =>
    rw [List.cons_append]
    show (preOf n (c :: (cs ++ h)) || subIn n (cs ++ h)) = true
    rw [ih, Bool.or_true]

theorem subIn_extend_right {n h : List Char} (r : List Char)
    (hs : subIn n h = true) : subIn n (h ++ r) = true := by
  induction h with
  | nil =>
    simp only [subIn] at hs
    exact subIn_of_preOf (preOf_extend r hs)
  | cons c t ih =>
    simp only [subIn, Bool.or_eq_true] at hs
    rw [List.cons_append]
    show (preOf n (c :: (t ++ r)) || subIn n (t ++ r)) = true
    rcases hs with hp | hsub
    · have hp₂ := preOf_extend r hp
      rw [List.cons_append] at hp₂
      rw [hp₂, Bool.true_or]
    · rw [ih hsub, Bool.or_true]

/-- A string located between two others is contained in the whole. -/
theorem strContains_mid (a b c n : String) (h : strContains b n = true) :
    strContains (a ++ b ++ c) n = true := by
  unfold strContains at h ⊢
  rw [String.data_append, String.data_append]
  rw [List.append_assoc]
  exact subIn_append_left _ (subIn_extend_right _ h)

theorem strContains_left (a c n : String) (h : strContains a n = true) :
    strContains (a ++ c) n = true := by
  have := strContains_mid "" a c n h
  simpa using this

theorem strContains_right (a c n : String) (h : strContains c n = true) :
    strContains (a ++ c) n = true := by
  have := strContains_mid a c "" n h
  simpa [String.append_empty] using this

/-- A needle `p ++ m ++ s` is found in `(a ++ p) ++ m ++ (s ++ b)`. -/
theorem strContains_frame (a p m s b : String) :
    strContains ((a ++ p) ++ m ++ (s ++ b)) (p ++ m ++ s) = true := by
  unfold strContains
  simp only [String.data_append]
  have h1 : p.data ++ m.data ++ s.data ++ b.data
      = (p.data ++ m.data ++ s.data) ++ b.data := by
    simp [List.append_assoc]
  have hpre : preOf (p.data ++ m.data ++ s.data)
      (p.data ++ m.data ++ (s.data ++ b.data)) = true := by
    have := preOf_self_append (p.data ++ m.data ++ s.data) b.data
    simpa [List.append_assoc] using this
  have hsub : subIn (p.data ++ m.data ++ s.data)
      (p.data ++ m.data ++ (s.data ++ b.data)) = true :=
    subIn_of_preOf hpre
  have := subIn_append_left a.data hsub
  simpa [List.append_assoc] using this

theorem strContains_self_left (a b : String) :
    strContains (a ++ b) a = true := by
  unfold strContains
  rw [String.data_append]
  exact subIn_of_preOf (preOf_self_append a.data b.data)

theorem mem_insSorted {a s : String} {l : List String} :
    a ∈ insSorted s l ↔ a = s ∨ a ∈ l := by
  induction l with
  | nil => simp [insSorted]
  | cons x t ih =>
    by_cases h : s < x
    · simp [insSorted, h]
    · simp only [insSorted, h, if_false, List.mem_cons, ih]
      tauto

theorem mem_sortStr {a : String} {l : List String} :
    a ∈ sortStr l ↔ a ∈ l := by
  induction l with
  | nil => simp [sortStr]
  | cons x t ih => simp [sortStr, mem_insSorted, ih]

theorem subIn_joinComma {x : String} {l : List String} (h : x ∈ l) :
    strContains (joinComma l) x = true := by
  induction l with
  | nil => cases h
  | cons y t ih =>
    cases t with
    | nil =>
      rcases List.mem_singleton.mp h with rfl
      have h0 := strContains_self_left x ""
      rw [String.append_empty] at h0
      simpa [joinComma] using h0
    | cons z t₂ =>
      rcases List.mem_cons.mp h with rfl | hmem
      · have : joinComma (x :: z :: t₂) = x ++ (", " ++ joinComma (z :: t₂)) := by
          simp [joinComma, String.append_assoc]
        rw [this]
        exact strContains_self_left x _
      · have : joinComma (y :: z :: t₂) = (y ++ ", ") ++ joinComma (z :: t₂) := by
          simp [joinComma, String.append_assoc]
        rw [this]
        exact strContains_right _ _ _ (ih hmem)

theorem alookup_ainsert_self (k : String) (v : α) (l : List (String × α)) :
    alookup k (ainsert k v l) = some v := by
  induction l with
  | nil => simp [ainsert, alookup]
  | cons p t ih =>
    by_cases h : k = p.1
    · simp [ainsert, alookup, h]
    · simp [ainsert, alookup, h, ih]

theorem alookup_ainsert_ne {k m : String} (v : α) (l : List (String × α))
    (h : m ≠ k) : alookup m (ainsert k v l) = alookup m l := by
  induction l with
  | nil => simp [ainsert, alookup, h]
  | cons p t ih =>
    by_cases hk : k = p.1
    · subst hk
      simp [ainsert, alookup, h]
    · by_cases hm : m = p.1
      · simp [ainsert, alookup, hk, hm]
      · simp [ainsert, alookup, hk, hm, ih]

theorem alookup_aerase_self (k : String) (l : List (String × α)) :
    alookup k (aerase k l) = none := by
  induction l with
  | nil => rfl
  | cons p t ih =>
    by_cases h : k = p.1
    · simp only [aerase, h, if_true, reduceIte] at ih ⊢
      exact ih
    · simp [aerase, alookup, h, ih]

theorem alookup_aerase_ne {k m : String} (l : List (String × α))
    (h : m ≠ k) : alookup m (aerase k l) = alookup m l := by
  induction l with
  | nil => rfl
  | cons p t ih =>
    by_cases hk : k = p.1
    · subst hk
      simp [aerase, alookup, h, ih]
    · by_cases hm : m = p.1
      · simp [aerase, alookup, hk, hm]
      · simp [aerase, alookup, hk, hm, ih]

theorem regAll_lookup (n apiId : String) (ts : List (String × HATool))
    (acc : List (String × (HATool × String))) :
    alookup n (regAll apiId acc ts) =
      match lastBind n ts with
      | some t => some (t, apiId)
      | none => alookup n acc := by
  induction ts generalizing acc with
  | nil => simp [regAll, lastBind]
  | cons p t ih =>
    obtain ⟨k, v⟩ := p
    rw [regAll, ih]
    cases hlast : lastBind n t with
    | some r => simp [lastBind, hlast]
    | none =>
      by_cases hk : n = k
      · subst hk
        simp [lastBind, hlast, alookup_ainsert_self]
      · simp [lastBind, hlast, hk, alookup_ainsert_ne _ _ hk]

theorem async_call_tool_found {reg : HAToolRegistry} {tool_name : String}
    {t : HATool} {apiId : String}
    (h : alookup tool_name reg.tools_by_name = some (t, apiId))
    (args : List (String × PyVal)) :
    async_call_tool reg tool_name args = handlerResult reg t args := by
  unfold async_call_tool handlerResult
  rw [h]

/-- Strings with distinct known head characters stay distinct under
appending. -/
theorem append_ne_of_head {x y : String} (a b : String)
    (hx : x.data.head? ≠ y.data.head?) (hxe : x.data ≠ [])
    (hye : y.data ≠ []) : x ++ a ≠ y ++ b := by
  intro h
  apply hx
  have hd := congrArg String.data h
  rw [String.data_append, String.data_append] at hd
  have := congrArg List.head? hd
  cases hxd : x.data with
  | nil => exact absurd hxd hxe
  | cons c cs =>
    cases hyd : y.data with
    | nil => exact absurd hyd hye
    | cons d ds =>
      rw [hxd, hyd] at this
      simpa [hxd, hyd] using this

theorem getSessionManager_agent_cache (cfg : WrapperCfg) (uid : String)
    (st : WrapperState) :
    (getSessionManager cfg uid st).2.agent_cache = st.agent_cache := by
  unfold getSessionManager
  cases h : alookup uid st.session_managers <;> simp [h]

theorem get_agent_hit {cfg : WrapperCfg} {c uid : String} {ctx : Bool}
    {st : WrapperState} {a : Agent}
    (h : alookup uid st.agent_cache = some a) :
    get_agent_with_memory cfg c uid ctx st = (a, st) := by
  unfold get_agent_with_memory
  rw [h]

theorem get_agent_cached (cfg : WrapperCfg) (c uid : String) (ctx : Bool)
    (st : WrapperState) :
    alookup uid (get_agent_with_memory cfg c uid ctx st).2.agent_cache =
      some (get_agent_with_memory cfg c uid ctx st).1 := by
  unfold get_agent_with_memory
  cases h : alookup uid st.agent_cache with
  | some a => simpa using h
  | none => simp [alookup_ainsert_self]

theorem strJoin_shift (l : List String) (a : String) :
    l.foldl (fun r s => r ++ s) a = a ++ l.foldl (fun r s => r ++ s) "" := by
  induction l generalizing a with
  | nil => simp [String.append_empty]
  | cons b t ih =>
    simp only [List.foldl_cons]
    rw [ih (a ++ b), ih ("" ++ b), String.empty_append, String.append_assoc]

theorem strJoin_cons (s : String) (l : List String) :
    String.join (s :: l) = s ++ String.join l := by
  simp only [String.join, List.foldl_cons]
  rw [strJoin_shift l ("" ++ s), String.empty_append]

theorem join_textParts (blocks : List ContentBlock) :
    String.join (textParts blocks) = taggedTextConcat blocks := by
  induction blocks with
  | nil => rfl
  | cons b rest ih =>
    cases b with
    | dict o =>
      cases o with
      | some t => simp [textParts, taggedTextConcat, strJoin_cons, ← ih]
      | none => simpa [textParts, taggedTextConcat] using ih
    | nonDict => simpa [textParts, taggedTextConcat] using ih

theorem textParts_nil_iff (blocks : List ContentBlock) :
    textParts blocks = [] ↔ hasTextSegment blocks = false := by
  induction blocks with
  | nil => simp [textParts, hasTextSegment]
  | cons b rest ih =>
    cases b with
    | dict o =>
      cases o with
      | some t => simp [textParts, hasTextSegment]
      | none => simpa [textParts, hasTextSegment] using ih
    | nonDict => simpa [textParts, hasTextSegment] using ih

theorem get_agent_miss_seq (cfg : WrapperCfg) (c uid : String) (ctx : Bool)
    (st : WrapperState) (h : alookup uid st.agent_cache = none) :
    (get_agent_with_memory cfg c uid ctx st).1.seq =
      (getSessionManager cfg uid st).2.next_seq := by
  unfold get_agent_with_memory
  rw [h]

theorem generate_response_retry_eq (cfg : WrapperCfg) (st : WrapperState)
    (oracle : Agent → InvokeOutcome) (ctx : Bool) (cid u code msg : String)
    (hm : cfg.enable_memory = true) (hu : u ≠ "")
    (ho : oracle (get_agent_with_memory cfg cid u ctx st).1 =
      .clientError code msg)
    (hsig : isTurnRoleError code msg = true) :
    generate_response cfg oracle ctx (some cid) (some u) st =
      (match oracle (rebuiltAgent cfg ctx cid u st) with
        | .ok r =>
          (.text (extract_response_text r), rebuiltState cfg ctx cid u st,
            [(get_agent_with_memory cfg cid u ctx st).1,
              rebuiltAgent cfg ctx cid u st])
        | .clientError _ msg₂ =>
          (.fatalHA (bedrockErrorWrap msg₂), rebuiltState cfg ctx cid u st,
            [(get_agent_with_memory cfg cid u ctx st).1,
              rebuiltAgent cfg ctx cid u st])
        | .otherError msg₂ =>
          (.fatalOther msg₂, rebuiltState cfg ctx cid u st,
            [(get_agent_with_memory cfg cid u ctx st).1,
              rebuiltAgent cfg ctx cid u st])) := by
  unfold generate_response rebuiltAgent rebuiltState droppedState
  simp only [hm, hsig, ho, if_neg hu, if_true]

/-! ## Claims -/

/-- C1: for every user id, two requests carrying different conversation ids
but the same user id return the identical cached agent instance — the
second lookup is a cache hit that returns the stored instance and leaves
the state (hence the cache) untouched, the built agent is cached under the
user id, and the whole operation is independent of the conversation id. -/
theorem C1_same_user_shares_cached_agent (cfg : WrapperCfg)
    (st : WrapperState) (c₁ c₂ uid : String) (ctx : Bool) (hc : c₁ ≠ c₂) :
    get_agent_with_memory cfg c₂ uid ctx
        (get_agent_with_memory cfg c₁ uid ctx st).2 =
      ((get_agent_with_memory cfg c₁ uid ctx st).1,
        (get_agent_with_memory cfg c₁ uid ctx st).2) ∧
    alookup uid (get_agent_with_memory cfg c₁ uid ctx st).2.agent_cache =
      some (get_agent_with_memory cfg c₁ uid ctx st).1 ∧
    get_agent_with_memory cfg c₁ uid ctx st =
      get_agent_with_memory cfg c₂ uid ctx st := by
  have hcache := get_agent_cached cfg c₁ uid ctx st
  exact ⟨get_agent_hit hcache, hcache, rfl⟩

/-- Witness for C1 at concrete inputs. -/
theorem C1_same_user_shares_cached_agent_witness :
    ("conv-A" : String) ≠ "conv-B" ∧
    (get_agent_with_memory exCfgMem "conv-B" "user-1" true
        (get_agent_with_memory exCfgMem "conv-A" "user-1" true initState).2 =
      ((get_agent_with_memory exCfgMem "conv-A" "user-1" true initState).1,
        (get_agent_with_memory exCfgMem "conv-A" "user-1" true initState).2) ∧
    alookup "user-1"
        (get_agent_with_memory exCfgMem "conv-A" "user-1" true
          initState).2.agent_cache =
      some (get_agent_with_memory exCfgMem "conv-A" "user-1" true initState).1 ∧
    get_agent_with_memory exCfgMem "conv-A" "user-1" true initState =
      get_agent_with_memory exCfgMem "conv-B" "user-1" true initState) :=
  ⟨by decide,
    C1_same_user_shares_cached_agent exCfgMem initState "conv-A" "conv-B"
      "user-1" true (by decide)⟩

/-- C2 (amended): for every memory-enabled session-backed invocation that
fails with a provider validation error carrying the incompatible-turn-roles
signature, the orchestrator drops both the agent-cache entry and the
session-manager-cache entry for the effective user, rebuilds a fresh agent
(cached again under the user), and retries the single invocation exactly
once — the trace holds exactly the original and the rebuilt agent; a
successful retry returns its extracted text and a failing retry propagates
as a fatal error for the request. -/
theorem C2_turn_role_retry (cfg : WrapperCfg) (st : WrapperState)
    (oracle : Agent → InvokeOutcome) (ctx : Bool) (cid u code msg : String)
    (hm : cfg.enable_memory = true) (hu : u ≠ "")
    (ho : oracle (get_agent_with_memory cfg cid u ctx st).1 =
      .clientError code msg)
    (hsig : isTurnRoleError code msg = true) :
    alookup u (droppedState cfg ctx cid u st).agent_cache = none ∧
    alookup u (droppedState cfg ctx cid u st).session_managers = none ∧
    alookup u (rebuiltState cfg ctx cid u st).agent_cache =
      some (rebuiltAgent cfg ctx cid u st) ∧
    (rebuiltAgent cfg ctx cid u st).seq =
      (getSessionManager cfg u (droppedState cfg ctx cid u st)).2.next_seq ∧
    (generate_response cfg oracle ctx (some cid) (some u) st).2.2 =
      [(get_agent_with_memory cfg cid u ctx st).1,
        rebuiltAgent cfg ctx cid u st] ∧
    (generate_response cfg oracle ctx (some cid) (some u) st).2.1 =
      rebuiltState cfg ctx cid u st ∧
    (∀ r, oracle (rebuiltAgent cfg ctx cid u st) = .ok r →
      (generate_response cfg oracle ctx (some cid) (some u) st).1 =
        .text (extract_response_text r)) ∧
    (∀ code₂ msg₂,
      oracle (rebuiltAgent cfg ctx cid u st) = .clientError code₂ msg₂ →
      (generate_response cfg oracle ctx (some cid) (some u) st).1 =
        .fatalHA (bedrockErrorWrap msg₂)) := by
  have h1 : alookup u (droppedState cfg ctx cid u st).agent_cache = none := by
    simp [droppedState, clear_user_cache, alookup_aerase_self]
  have h2 : alookup u (droppedState cfg ctx cid u st).session_managers
      = none := by
    simp [droppedState, clear_user_cache, alookup_aerase_self]
  have h3 := get_agent_cached cfg cid u ctx (droppedState cfg ctx cid u st)
  have h4 :=
    get_agent_miss_seq cfg cid u ctx (droppedState cfg ctx cid u st) h1
  have hred :=
    generate_response_retry_eq cfg st oracle ctx cid u code msg hm hu ho hsig
  refine ⟨h1, h2, h3, h4, ?_, ?_, ?_, ?_⟩
  · rw [hred]
    rcases h : oracle (rebuiltAgent cfg ctx cid u st) with r | ⟨c₂, m₂⟩ | m₂ <;>
      simp [h]
  · rw [hred]
    rcases h : oracle (rebuiltAgent cfg ctx cid u st) with r | ⟨c₂, m₂⟩ | m₂ <;>
      simp [h]
  · intro r hr
    rw [hred, hr]
  · intro code₂ msg₂ hr
    rw [hred, hr]

/-- Witness for C2 at concrete inputs: the first-built agent fails with the
turn-role signature, the rebuilt agent succeeds, and the orchestrator
returns the retry's text after invoking exactly the two agents. -/
theorem C2_turn_role_retry_witness :
    exCfgMem.enable_memory = true ∧
    ("user-1" : String) ≠ "" ∧
    exOracleRetry
        (get_agent_with_memory exCfgMem "conv-A" "user-1" true initState).1 =
      .clientError "ValidationException" exTurnMsg ∧
    isTurnRoleError "ValidationException" exTurnMsg = true ∧
    (generate_response exCfgMem exOracleRetry true (some "conv-A")
        (some "user-1") initState).2.2 =
      [(get_agent_with_memory exCfgMem "conv-A" "user-1" true initState).1,
        rebuiltAgent exCfgMem true "conv-A" "user-1" initState] ∧
    (generate_response exCfgMem exOracleRetry true (some "conv-A")
        (some "user-1") initState).1 =
      .text (extract_response_text exOkResult) :=
  ⟨by decide, by decide, by decide, by decide,
    (C2_turn_role_retry exCfgMem initState exOracleRetry true "conv-A"
      "user-1" "ValidationException" exTurnMsg (by decide) (by decide)
      (by decide) (by decide)).2.2.2.2.1,
    (C2_turn_role_retry exCfgMem initState exOracleRetry true "conv-A"
      "user-1" "ValidationException" exTurnMsg (by decide) (by decide)
      (by decide) (by decide)).2.2.2.2.2.2.1 exOkResult (by decide)⟩

/-- C2 counterexample: the claim quantifies over every session-backed
invocation, but when long-term memory is disabled the orchestrator invokes
the session-backed agent without the recovery path: on the very turn-role
validation error the claim covers, the trace shows a single invocation
(no retry), the error is immediately fatal, and the agent-cache entry is
not dropped. -/
theorem C2_counterexample :
    exCfgNoMem.enable_memory = false ∧
    isTurnRoleError "ValidationException" exTurnMsg = true ∧
    exOracleFail
        (get_agent_with_memory exCfgNoMem "conv-A" "user-1" true initState).1 =
      .clientError "ValidationException" exTurnMsg ∧
    (generate_response exCfgNoMem exOracleFail true (some "conv-A")
        (some "user-1") initState).2.2.length = 1 ∧
    (generate_response exCfgNoMem exOracleFail true (some "conv-A")
        (some "user-1") initState).1 =
      .fatalHA (bedrockErrorWrap exTurnMsg) ∧
    alookup "user-1"
        (generate_response exCfgNoMem exOracleFail true (some "conv-A")
          (some "user-1") initState).2.1.agent_cache ≠ none :=
  ⟨by decide, by decide, by decide, by decide, by decide, by decide⟩

/-- C3: for every intent in the fixed requires-target-name set, dispatching
with no `name` argument returns a structured error payload without invoking
any handler, and the message is tailored: list-name guidance for the
`HassList*` intents, device-name guidance for all others. -/
theorem C3_missing_name_validation (reg : HAToolRegistry)
    (inp : ControlInput) (hmem : inp.tool_name ∈ intents_requiring_name)
    (hname : inp.name = "") :
    (homeassistant_control reg inp).handlerCalls = 0 ∧
    (homeassistant_control reg inp).payload =
      [("error", missingNameMsg inp.tool_name)] ∧
    strContains (missingNameMsg inp.tool_name)
      "requires a \x27name\x27 parameter" = true ∧
    (inp.tool_name.startsWith "HassList" = true →
      strContains (missingNameMsg inp.tool_name)
        "provide the list name" = true) ∧
    (inp.tool_name.startsWith "HassList" = false →
      strContains (missingNameMsg inp.tool_name)
        "provide the device name" = true) := by
  have hc : (intents_requiring_name.contains inp.tool_name
      && (inp.name == "")) = true := by
    have h1 : intents_requiring_name.contains inp.tool_name = true :=
      List.elem_eq_true_of_mem hmem
    rw [h1, hname]
    decide
  have hctrl : homeassistant_control reg inp =
      { payload := [("error", missingNameMsg inp.tool_name)],
        handlerCalls := 0 } := by
    unfold homeassistant_control
    rw [hc]
    simp
  refine ⟨by rw [hctrl], by rw [hctrl], ?_, ?_, ?_⟩
  · unfold missingNameMsg
    exact strContains_left _ _ _ (strContains_right _ _ _ (by decide))
  · intro hstart
    unfold missingNameMsg
    rw [hstart]
    simp only [if_true]
    exact strContains_right _ _ _ (by decide)
  · intro hstart
    unfold missingNameMsg
    rw [hstart]
    simp only [Bool.false_eq_true, if_false]
    exact strContains_right _ _ _ (by decide)

/-- Witness for C3 at a concrete input: `HassTurnOn` with no name. -/
theorem C3_missing_name_validation_witness :
    ("HassTurnOn" : String) ∈ intents_requiring_name ∧
    exInpTurnOn.name = "" ∧
    ((homeassistant_control exReg exInpTurnOn).handlerCalls = 0 ∧
    (homeassistant_control exReg exInpTurnOn).payload =
      [("error", missingNameMsg "HassTurnOn")] ∧
    strContains (missingNameMsg "HassTurnOn")
      "requires a \x27name\x27 parameter" = true ∧
    ("HassTurnOn".startsWith "HassList" = true →
      strContains (missingNameMsg "HassTurnOn")
        "provide the list name" = true) ∧
    ("HassTurnOn".startsWith "HassList" = false →
      strContains (missingNameMsg "HassTurnOn")
        "provide the device name" = true)) :=
  ⟨by decide, rfl,
    C3_missing_name_validation exReg exInpTurnOn (by decide) rfl⟩

/-- C4: dispatching an unregistered tool name returns a structured error
payload that mentions every available tool name, with the underlying
handlers never invoked; the embedding is a total function, so no exception
escapes. -/
theorem C4_unknown_tool_error (reg : HAToolRegistry) (tool_name : String)
    (args : List (String × PyVal))
    (h : alookup tool_name reg.tools_by_name = none) :
    (async_call_tool reg tool_name args).handlerCalls = 0 ∧
    ∃ msg, (async_call_tool reg tool_name args).payload = [("error", msg)] ∧
      ∀ k ∈ akeys reg.tools_by_name, strContains msg k = true := by
  have hcall : async_call_tool reg tool_name args =
      { payload := [("error",
          "Tool \x27" ++ tool_name ++ "\x27 not found. Available tools: " ++
            joinComma (sortStr (akeys reg.tools_by_name)))],
        handlerCalls := 0 } := by
    unfold async_call_tool
    rw [h]
  refine ⟨by rw [hcall], _, by rw [hcall], ?_⟩
  intro k hk
  exact strContains_right _ _ _ (subIn_joinComma (mem_sortStr.mpr hk))

/-- Witness for C4 at a concrete input: unknown name against the example
registry holding `HassTurnOn`. -/
theorem C4_unknown_tool_error_witness :
    alookup "NopeTool" exReg.tools_by_name = none ∧
    ((async_call_tool exReg "NopeTool" []).handlerCalls = 0 ∧
    ∃ msg, (async_call_tool exReg "NopeTool" []).payload = [("error", msg)] ∧
      ∀ k ∈ akeys exReg.tools_by_name, strContains msg k = true) :=
  ⟨rfl, C4_unknown_tool_error exReg "NopeTool" [] rfl⟩

/-- C5: when two providers register a tool under the same name, the merged
table holds the second-loaded provider's tool, and dispatch of that name
produces exactly that tool's handler outcome (last-write-wins). -/
theorem C5_last_write_wins (p₁ p₂ : HAAPI) (n : String) (t₂ : HATool)
    (args : List (String × PyVal)) (h₁ : p₁.instantiate_ok = true)
    (h₂ : p₂.instantiate_ok = true)
    (hreg : (lastBind n p₁.tools).isSome = true)
    (hlast : lastBind n p₂.tools = some t₂) :
    alookup n (async_load_apis [p₁, p₂]).tools_by_name = some (t₂, p₂.id) ∧
    async_call_tool (async_load_apis [p₁, p₂]) n args =
      handlerResult (async_load_apis [p₁, p₂]) t₂ args := by
  have hl : alookup n (async_load_apis [p₁, p₂]).tools_by_name =
      some (t₂, p₂.id) := by
    unfold async_load_apis
    simp only [loadApis, h₁, h₂, if_true]
    rw [regAll_lookup, hlast]
  exact ⟨hl, async_call_tool_found hl args⟩

/-- Witness for C5 at concrete inputs: both example providers register
`HassTurnOn`; the second provider's tool wins. -/
theorem C5_last_write_wins_witness :
    exAssistApi.instantiate_ok = true ∧
    exSecondApi.instantiate_ok = true ∧
    (lastBind "HassTurnOn" exAssistApi.tools).isSome = true ∧
    lastBind "HassTurnOn" exSecondApi.tools = some exOverrideTool ∧
    (alookup "HassTurnOn"
        (async_load_apis [exAssistApi, exSecondApi]).tools_by_name =
      some (exOverrideTool, "assist2") ∧
    async_call_tool (async_load_apis [exAssistApi, exSecondApi])
        "HassTurnOn" [] =
      handlerResult (async_load_apis [exAssistApi, exSecondApi])
        exOverrideTool []) :=
  ⟨rfl, rfl, rfl, rfl,
    C5_last_write_wins exAssistApi exSecondApi "HassTurnOn" exOverrideTool []
      rfl rfl rfl rfl⟩

/-- C6: for a reply whose message is an ordered segment list, the returned
text is the in-order concatenation of the text of every text-tagged
segment; when no segment is text-tagged, or the reply has no message, the
structural representation coerced to a string is returned. -/
theorem C6_response_extraction (r : AgentResult)
    (blocks : List ContentBlock) :
    (r.message = some blocks →
      (hasTextSegment blocks = true →
        extract_response_text r = taggedTextConcat blocks) ∧
      (hasTextSegment blocks = false →
        extract_response_text r = r.str_repr)) ∧
    (r.message = none → extract_response_text r = r.str_repr) := by
  constructor
  · intro hmsg
    constructor
    · intro hseg
      simp only [extract_response_text, hmsg]
      rcases htp : textParts blocks with _ | ⟨a, t⟩
      · rw [textParts_nil_iff] at htp
        rw [htp] at hseg
        cases hseg
      · rw [if_neg (by simp), ← htp, join_textParts]
    · intro hseg
      have htp : textParts blocks = [] := (textParts_nil_iff blocks).mpr hseg
      simp [extract_response_text, hmsg, htp]
  · intro hmsg
    simp [extract_response_text, hmsg]

/-- Witness for C6 at a concrete reply with text-tagged and untagged
segments. -/
theorem C6_response_extraction_witness :
    exOkResult.message = some exBlocks ∧
    hasTextSegment exBlocks = true ∧
    extract_response_text exOkResult = taggedTextConcat exBlocks ∧
    taggedTextConcat exBlocks = "All good." :=
  ⟨rfl, by decide,
    ((C6_response_extraction exOkResult exBlocks).1 rfl).1 (by decide),
    by decide⟩

/-- C7: a handler exception whose text matches the cannot-turn-on-a-scene
pattern is converted to a hint that names the direct dispatch call
(`tool_name='<scene>'`) when a same-named tool is registered, and to the
generic hint otherwise; any other handler exception is converted to a
structured error carrying the exception's message. -/
theorem C7_handler_exception_conversion (reg : HAToolRegistry)
    (tool_name : String) (t : HATool) (apiId : String)
    (args : List (String × PyVal)) (msg : String)
    (hfind : alookup tool_name reg.tools_by_name = some (t, apiId))
    (hraise : t.handler args = .raises msg) :
    (async_call_tool reg tool_name args).handlerCalls = 1 ∧
    (async_call_tool reg tool_name args).payload =
      [("error", sceneAdjusted reg msg)] ∧
    ((strContains msg "Failed to call turn_on" &&
        strContains msg "scene.") = false →
      sceneAdjusted reg msg = msg) ∧
    ((strContains msg "Failed to call turn_on" &&
        strContains msg "scene.") = true →
      ((alookup ((sceneSearchStr msg).getD "unknown")
            reg.tools_by_name).isSome = true →
        strContains (sceneAdjusted reg msg)
          ("tool_name=\x27" ++ (sceneSearchStr msg).getD "unknown" ++ "\x27") =
          true) ∧
      ((alookup ((sceneSearchStr msg).getD "unknown")
            reg.tools_by_name).isSome = false →
        sceneAdjusted reg msg =
          "Scenes cannot be activated with HassTurnOn. Try using the scene name as tool_name directly, or check available tools with GetLiveContext.")) := by
  have hcall := async_call_tool_found hfind args
  have hres : handlerResult reg t args =
      { payload := [("error", sceneAdjusted reg msg)], handlerCalls := 1 } := by
    unfold handlerResult
    rw [hraise]
  refine ⟨by rw [hcall, hres], by rw [hcall, hres], ?_, ?_⟩
  · intro hpat
    unfold sceneAdjusted
    rw [hpat]
    simp
  · intro hpat
    constructor
    · intro hsome
      unfold sceneAdjusted
      rw [hpat]
      simp only [reduceIte, hsome]
      have e₁ : "Cannot use HassTurnOn for scenes. Use tool_name=\x27" =
          "Cannot use HassTurnOn for scenes. Use " ++ "tool_name=\x27" := by
        decide
      have e₂ : "\x27 directly instead." = "\x27" ++ " directly instead." := by
        decide
      rw [e₁, e₂]
      exact strContains_frame _ _ _ _ _
    · intro hnone
      unfold sceneAdjusted
      rw [hpat]
      simp [hnone]

/-- Witness for C7 at a concrete raising handler whose error names a scene
with a registered same-named tool. -/
theorem C7_handler_exception_conversion_witness :
    alookup "HassTurnOn" exRegScene.tools_by_name =
      some (exRaisingTool, "assist") ∧
    exRaisingTool.handler [] = .raises exSceneMsg ∧
    (strContains exSceneMsg "Failed to call turn_on" &&
      strContains exSceneMsg "scene.") = true ∧
    (sceneSearchStr exSceneMsg).getD "unknown" = "ha_new" ∧
    (alookup "ha_new" exRegScene.tools_by_name).isSome = true ∧
    ((async_call_tool exRegScene "HassTurnOn" []).payload =
      [("error", sceneAdjusted exRegScene exSceneMsg)] ∧
    strContains (sceneAdjusted exRegScene exSceneMsg)
      ("tool_name=\x27" ++ (sceneSearchStr exSceneMsg).getD "unknown" ++
        "\x27") = true) :=
  ⟨rfl, rfl, by decide, by decide, rfl,
    (C7_handler_exception_conversion exRegScene "HassTurnOn" exRaisingTool
      "assist" [] exSceneMsg rfl rfl).2.1,
    ((C7_handler_exception_conversion exRegScene "HassTurnOn" exRaisingTool
      "assist" [] exSceneMsg rfl rfl).2.2.2 (by decide)).1 rfl⟩

/-- C8: clearing one user's cache removes exactly that user's agent-cache
and session-manager-cache entries, leaves every other user's entries
untouched, and deletes no persisted on-disk session data. -/
theorem C8_clear_user_cache_frame (uid : String) (st : WrapperState) :
    alookup uid (clear_user_cache uid st).agent_cache = none ∧
    alookup uid (clear_user_cache uid st).session_managers = none ∧
    (∀ u, u ≠ uid →
      alookup u (clear_user_cache uid st).agent_cache =
        alookup u st.agent_cache ∧
      alookup u (clear_user_cache uid st).session_managers =
        alookup u st.session_managers) ∧
    (clear_user_cache uid st).disk_sessions = st.disk_sessions ∧
    (clear_user_cache uid st).default_agent = st.default_agent := by
  refine ⟨?_, ?_, ?_, rfl, rfl⟩
  · simp [clear_user_cache, alookup_aerase_self]
  · simp [clear_user_cache, alookup_aerase_self]
  · intro u hu
    exact ⟨by simp [clear_user_cache, alookup_aerase_ne _ hu],
      by simp [clear_user_cache, alookup_aerase_ne _ hu]⟩

/-- Witness for C8 at a concrete two-user state. -/
theorem C8_clear_user_cache_frame_witness :
    ("user-2" : String) ≠ "user-1" ∧
    (alookup "user-2" (clear_user_cache "user-1" exState2).agent_cache =
      alookup "user-2" exState2.agent_cache ∧
    alookup "user-2" (clear_user_cache "user-1" exState2).session_managers =
      alookup "user-2" exState2.session_managers) ∧
    alookup "user-1" (clear_user_cache "user-1" exState2).agent_cache =
      none ∧
    alookup "user-1" (clear_user_cache "user-1" exState2).session_managers =
      none ∧
    (clear_user_cache "user-1" exState2).disk_sessions =
      exState2.disk_sessions :=
  ⟨by decide,
    (C8_clear_user_cache_frame "user-1" exState2).2.2.1 "user-2" (by decide),
    (C8_clear_user_cache_frame "user-1" exState2).1,
    (C8_clear_user_cache_frame "user-1" exState2).2.1,
    (C8_clear_user_cache_frame "user-1" exState2).2.2.2.1⟩

/-- C9: the reported memory_enabled flag is the conjunction of the
configured memory flag and the long-term backend's availability; whenever
the backend is unavailable the flag is false and the stats carry the
import-failure reason in the error field. -/
theorem C9_memory_stats_conjunction (s f : Bool) (cfg : WrapperCfg)
    (st : WrapperState)
    (hA : cfg.mem0_available = (mem0ImportState s f).1)
    (hM : cfg.mem0_error_message = (mem0ImportState s f).2) :
    (get_memory_stats cfg st).memory_enabled =
      (cfg.enable_memory_cfg && cfg.mem0_available) ∧
    (cfg.mem0_available = false →
      (get_memory_stats cfg st).memory_enabled = false ∧
      ∃ reason, cfg.mem0_error_message = some reason ∧
        (get_memory_stats cfg st).error = some reason) := by
  constructor
  · simp [get_memory_stats, WrapperCfg.enable_memory]
  · intro hfalse
    refine ⟨by simp [get_memory_stats, WrapperCfg.enable_memory, hfalse], ?_⟩
    cases s <;> cases f <;>
      simp_all [mem0ImportState, get_memory_stats]

/-- Witness for C9 with memory requested but faiss unavailable. -/
theorem C9_memory_stats_conjunction_witness :
    exCfgFaissMissing.mem0_available = (mem0ImportState true false).1 ∧
    exCfgFaissMissing.mem0_error_message = (mem0ImportState true false).2 ∧
    ((get_memory_stats exCfgFaissMissing initState).memory_enabled =
      (exCfgFaissMissing.enable_memory_cfg &&
        exCfgFaissMissing.mem0_available) ∧
    (exCfgFaissMissing.mem0_available = false →
      (get_memory_stats exCfgFaissMissing initState).memory_enabled = false ∧
      ∃ reason, exCfgFaissMissing.mem0_error_message = some reason ∧
        (get_memory_stats exCfgFaissMissing initState).error =
          some reason)) :=
  ⟨rfl, rfl,
    C9_memory_stats_conjunction true false exCfgFaissMissing initState
      rfl rfl⟩

/-- C10: for a tool name in the requires-target-name set that is not
registered, dispatch without a name argument returns the missing-name
error, which differs from the unknown-tool error that the registry lookup
would have produced for the same call. -/
theorem C10_missing_name_precedence (reg : HAToolRegistry)
    (inp : ControlInput) (hmem : inp.tool_name ∈ intents_requiring_name)
    (hname : inp.name = "")
    (hunknown : alookup inp.tool_name reg.tools_by_name = none) :
    homeassistant_control reg inp =
      { payload := [("error", missingNameMsg inp.tool_name)],
        handlerCalls := 0 } ∧
    (async_call_tool reg inp.tool_name (build_tool_args inp)).payload =
      [("error",
        "Tool \x27" ++ inp.tool_name ++ "\x27 not found. Available tools: " ++
          joinComma (sortStr (akeys reg.tools_by_name)))] ∧
    missingNameMsg inp.tool_name ≠
      "Tool \x27" ++ inp.tool_name ++ "\x27 not found. Available tools: " ++
        joinComma (sortStr (akeys reg.tools_by_name)) := by
  refine ⟨?_, ?_, ?_⟩
  · have h1 : intents_requiring_name.contains inp.tool_name = true :=
      List.elem_eq_true_of_mem hmem
    unfold homeassistant_control
    rw [h1, hname]
    simp
  · unfold async_call_tool
    rw [hunknown]
  · have hmsg : missingNameMsg inp.tool_name =
        "Intent \x27" ++ (inp.tool_name ++
          ("\x27 requires a \x27name\x27 parameter. " ++
            (if inp.tool_name.startsWith "HassList" then
              "For shopping list intents, provide the list name (e.g., name=\x27Shopping List\x27)."
            else
              "For device control, provide the device name (e.g., name=\x27kitchen light\x27)."))) := by
      unfold missingNameMsg
      rw [String.append_assoc, String.append_assoc]
    have hunk : "Tool \x27" ++ inp.tool_name ++
          "\x27 not found. Available tools: " ++
          joinComma (sortStr (akeys reg.tools_by_name)) =
        "Tool \x27" ++ (inp.tool_name ++
          ("\x27 not found. Available tools: " ++
            joinComma (sortStr (akeys reg.tools_by_name)))) := by
      rw [String.append_assoc, String.append_assoc]
    rw [hmsg, hunk]
    exact append_ne_of_head _ _ (by decide) (by decide) (by decide)

/-- Witness for C10: `HassTurnOn` with no name against a registry that does
not register `HassTurnOn`. -/
theorem C10_missing_name_precedence_witness :
    ("HassTurnOn" : String) ∈ intents_requiring_name ∧
    exInpTurnOn.name = "" ∧
    alookup "HassTurnOn" exRegNoTurnOn.tools_by_name = none ∧
    (homeassistant_control exRegNoTurnOn exInpTurnOn =
      { payload := [("error", missingNameMsg "HassTurnOn")],
        handlerCalls := 0 } ∧
    missingNameMsg "HassTurnOn" ≠
      "Tool \x27" ++ "HassTurnOn" ++ "\x27 not found. Available tools: " ++
        joinComma (sortStr (akeys exRegNoTurnOn.tools_by_name))) :=
  ⟨by decide, rfl, rfl,
    (C10_missing_name_precedence exRegNoTurnOn exInpTurnOn (by decide) rfl
      rfl).1,
    (C10_missing_name_precedence exRegNoTurnOn exInpTurnOn (by decide) rfl
      rfl).2.2⟩

end BedrockAgent
